import Mathlib

/-!
Verification of the browser-facing gateway of the Panel-votaciones repository:
theme resolution with fallback, the OTP proxy relay, the login-page OTP flow
and the profile reconciliation client (topbar).  Each network call is embedded
as a pure function from the outcome of the underlying fetch (a thrown network
error, or a response with a status code and the result of parsing its body) to
the resulting value or UI state.
-/

namespace Panel

/-- An HTTP response as seen after attempting to read its body: the status
code and the result of parsing the body (`none` when parsing failed, i.e.
`resp.json()` would reject). -/
structure HttpResp (α : Type) where
  status : Nat
  body : Option α
deriving DecidableEq, Repr

/-- Outcome of a `fetch` call: the fetch itself rejected (network error), or a
response was obtained. -/
inductive FetchResult (α : Type) where
  | thrown : FetchResult α
  | got : HttpResp α → FetchResult α
deriving DecidableEq, Repr

/-- The `ok` flag of the fetch API: status in the 200..299 range. -/
def HttpResp.ok {α : Type} (r : HttpResp α) : Bool :=
  200 ≤ r.status && r.status < 300

/-- Result of running an event handler: the resulting state and whether an
error escaped the handler as an unhandled promise rejection. -/
structure OpResult (σ : Type) where
  state : σ
  unhandled : Bool
deriving DecidableEq, Repr

/-! ## Theme resolver -/

/-- A theming payload: the four recognized color roles, each possibly absent
(partial configs are representable). -/
structure ThemeConfig where
  primary : Option String
  secondary : Option String
  topbar : Option String
  accent : Option String
deriving DecidableEq, Repr

/-- The hardcoded default palette (`DEFAULT_THEME` in the server with the
theming middleware; the same values appear inline in `getTheme`). -/
def DEFAULT_THEME : ThemeConfig :=
  { primary := some "#0ea5e9"
    secondary := some "#64748b"
    topbar := some "#64748b"
    accent := some "#22c55e" }

/-- `getTheme` from the server source: fetch `/ajustes/theming` inside a
try/catch; a bad status throws, a success body is parsed and returned as-is;
the catch arm returns the inline default palette. -/
def getTheme (o : FetchResult ThemeConfig) : ThemeConfig :=
  match o with
  | .thrown =>
      { primary := some "#0ea5e9", secondary := some "#64748b"
        topbar := some "#64748b", accent := some "#22c55e" }
  | .got r =>
      if r.ok then
        match r.body with
        | some t => t
        | none =>
            { primary := some "#0ea5e9", secondary := some "#64748b"
              topbar := some "#64748b", accent := some "#22c55e" }
      else
        { primary := some "#0ea5e9", secondary := some "#64748b"
          topbar := some "#64748b", accent := some "#22c55e" }

/-- The theming middleware of the other server variant: same try/catch around
the fetch, `throw` on `!resp.ok`, and `res.locals.theme = DEFAULT_THEME` in
the catch arm. -/
def themingMiddleware (o : FetchResult ThemeConfig) : ThemeConfig :=
  match o with
  | .thrown => DEFAULT_THEME
  | .got r =>
      if r.ok then
        match r.body with
        | some t => t
        | none => DEFAULT_THEME
      else
        DEFAULT_THEME

/-- A theming fetch outcome counts as failed when the fetch threw, the status
was not a success, or the success body did not parse. -/
def themeFetchFailed (o : FetchResult ThemeConfig) : Prop :=
  o = .thrown ∨ ∃ r, o = .got r ∧ (r.ok = false ∨ r.body = none)

/-! ## OTP proxy relay (`/api/request-otp`, `/api/verify-otp`) -/

/-- Body of the gateway reply: either the parsed backend JSON body
forwarded unchanged, or the fixed error payload `{detail: s}`. -/
inductive ProxyBody (α : Type) where
  | forwarded : α → ProxyBody α
  | detail : String → ProxyBody α
deriving DecidableEq, Repr

/-- The relay shared by both proxy endpoints: inside a try/catch, fetch the
backend, parse the body with `resp.json()` (before any status check), and
reply with the backend status and parsed body; the catch arm replies
status 500 with the fixed `detail` payload (`Error de conexión con backend`). -/
def otpProxyRelay {α : Type} (o : FetchResult α) : Nat × ProxyBody α :=
  match o with
  | .thrown => (500, .detail "Error de conexión con backend")
  | .got r =>
      match r.body with
      | some a => (r.status, .forwarded a)
      | none => (500, .detail "Error de conexión con backend")

/-! ## Login page (`login.js`): requestOtp, verifyOtp, loadLogo -/

/-- Which step of the login form is visible. -/
inductive LoginStep where
  | email : LoginStep
  | code : LoginStep
deriving DecidableEq, Repr

/-- Parsed JSON body of an OTP-request response (each key possibly absent). -/
structure OtpReqBody where
  message : Option String
  detail : Option String
deriving DecidableEq, Repr

/-- Visible outcome of `requestOtp`: the text of the message element and the
visible step. -/
structure LoginUi where
  message : String
  step : LoginStep
deriving DecidableEq, Repr

/-- `requestOtp`: POST to `/auth/otp/request` inside a try/catch.  On
`resp.ok` the body is parsed (a parse failure lands in the outer catch), the
message becomes `data.message` with fallback `Código enviado` and the email step is
hidden in favor of the code step.  On a non-success status the body is parsed
with a catch producing the empty object, and the message becomes `data.detail`
with fallback `Error al solicitar código`; the steps are untouched.  The catch
arm shows `Error de red`. -/
def requestOtp (prev : LoginStep) (o : FetchResult OtpReqBody) : LoginUi :=
  match o with
  | .thrown => { message := "Error de red", step := prev }
  | .got r =>
      if r.ok then
        match r.body with
        | some d => { message := d.message.getD "Código enviado", step := .code }
        | none => { message := "Error de red", step := prev }
      else
        match r.body with
        | some d => { message := d.detail.getD "Error al solicitar código", step := prev }
        | none => { message := "Error al solicitar código", step := prev }

/-- Parsed JSON body of an OTP-verify response. -/
structure OtpVerifyBody where
  message : Option String
  detail : Option String
  access_token : Option String
deriving DecidableEq, Repr

/-- Visible outcome of `verifyOtp`: the message text and, when
`localStorage.setItem` ran for `access_token`, the stored value
(`some none` records a call with an absent `access_token`). -/
structure VerifyUi where
  message : String
  stored : Option (Option String)
deriving DecidableEq, Repr

/-- `verifyOtp`: POST to `/auth/otp/verify` inside a try/catch, mirroring
`requestOtp`; on success it additionally stores `data.access_token`. -/
def verifyOtp (o : FetchResult OtpVerifyBody) : VerifyUi :=
  match o with
  | .thrown => { message := "Error de red", stored := none }
  | .got r =>
      if r.ok then
        match r.body with
        | some d =>
            { message := d.message.getD "Acceso concedido"
              stored := some d.access_token }
        | none => { message := "Error de red", stored := none }
      else
        match r.body with
        | some d => { message := d.detail.getD "Error al verificar código", stored := none }
        | none => { message := "Error al verificar código", stored := none }

/-- What the `src` of the logo element is bound to by `loadLogo`. -/
inductive LogoSrc where
  | objectURL : String → LogoSrc
  | defaultLogo : LogoSrc
deriving DecidableEq, Repr

/-- `loadLogo`: fetch `/ajustes/logo` inside a try/catch; on `resp.ok` read
the blob (a failure there lands in the catch) and bind an object URL, on a
non-success status or in the catch arm bind the bundled default path.  The
body is the blob, `none` when reading it failed. -/
def loadLogo (o : FetchResult String) : LogoSrc :=
  match o with
  | .thrown => .defaultLogo
  | .got r =>
      if r.ok then
        match r.body with
        | some b => .objectURL b
        | none => .defaultLogo
      else
        .defaultLogo

/-! ## Topbar (`topbar.js`): profile load/save and notifications -/

/-- The four editable profile fields. -/
inductive Field where
  | nombre : Field
  | grupo : Field
  | curso : Field
  | niu : Field
deriving DecidableEq, Repr, Fintype

/-- UI state of one profile input: its value, whether it is disabled and
whether its class list carries the `updated` / `pending` marks. -/
structure FieldState where
  value : String
  disabled : Bool
  updated : Bool
  pending : Bool
deriving DecidableEq, Repr

/-- The four inputs. -/
structure Fields where
  nombre : FieldState
  grupo : FieldState
  curso : FieldState
  niu : FieldState
deriving DecidableEq, Repr

def Fields.get (fs : Fields) : Field → FieldState
  | .nombre => fs.nombre
  | .grupo => fs.grupo
  | .curso => fs.curso
  | .niu => fs.niu

def Fields.set (fs : Fields) : Field → FieldState → Fields
  | .nombre, s => { fs with nombre := s }
  | .grupo, s => { fs with grupo := s }
  | .curso, s => { fs with curso := s }
  | .niu, s => { fs with niu := s }

/-- State of the topbar UI: the four inputs, the two display fields, the
`hidden` classes of the two action buttons, and the sequence of notifications
emitted so far (message text and toast type). -/
structure TopbarState where
  fields : Fields
  userName : String
  userNIU : String
  editHidden : Bool
  saveHidden : Bool
  toasts : List (String × String)
deriving DecidableEq, Repr

/-- A profile record as sent by the backend; each field possibly absent. -/
structure Perfil where
  nombre : Option String
  grupo : Option String
  curso : Option String
  niu : Option String
deriving DecidableEq, Repr

def Perfil.get (p : Perfil) : Field → Option String
  | .nombre => p.nombre
  | .grupo => p.grupo
  | .curso => p.curso
  | .niu => p.niu

/-- The empty object `{}` used for `data.perfil || {}`. -/
def emptyPerfil : Perfil :=
  { nombre := none, grupo := none, curso := none, niu := none }

/-- Parsed body of `GET /me/perfil`. -/
structure PerfilResp where
  perfil : Option Perfil
deriving DecidableEq, Repr

/-- Parsed body of `PATCH /me/perfil`: the refreshed profile and the two
classification lists, each possibly absent. -/
structure PatchResp where
  perfil : Option Perfil
  aplicados : Option (List Field)
  pendientes_aprobacion : Option (List Field)
deriving DecidableEq, Repr

/-- `fetchJSON`: fetch with the bearer header, return `null` when `!resp.ok`,
otherwise `await resp.json()`.  There is no try/catch, so a thrown fetch or a
failing parse rejects the returned promise (`Except.error`). -/
def fetchJSON {α : Type} (o : FetchResult α) : Except Unit (Option α) :=
  match o with
  | .thrown => .error ()
  | .got r =>
      if r.ok then
        match r.body with
        | some a => .ok (some a)
        | none => .error ()
      else
        .ok none

/-- Write each profile field with empty-string fallback into the matching
input and `p.nombre` / `p.niu` (same fallback) 
into the display fields, leaving disabled flags, marks, buttons and toasts
untouched (shared by the load and the save-success paths). -/
def setValuesFromPerfil (st : TopbarState) (p : Perfil) : TopbarState :=
  { st with
    userName := p.nombre.getD ""
    userNIU := p.niu.getD ""
    fields :=
      { nombre := { st.fields.nombre with value := p.nombre.getD "" }
        grupo := { st.fields.grupo with value := p.grupo.getD "" }
        curso := { st.fields.curso with value := p.curso.getD "" }
        niu := { st.fields.niu with value := p.niu.getD "" } } }

/-- `loadPerfil`: fetch `/me/perfil` through `fetchJSON`, turning `null` into
the empty object,
then populate display fields and inputs from `data.perfil || {}`.  A rejection
of `fetchJSON` escapes unhandled (there is no catch around the call). -/
def loadPerfil (st : TopbarState) (o : FetchResult PerfilResp) : OpResult TopbarState :=
  match fetchJSON o with
  | .error _ => { state := st, unhandled := true }
  | .ok data =>
      let p := (match data with
        | some d => d.perfil
        | none => none).getD emptyPerfil
      { state := setValuesFromPerfil st p, unhandled := false }

/-- Human-readable labels of `fieldMsg`. -/
def fieldLabel : Field → String
  | .nombre => "Nombre"
  | .grupo => "Grupo"
  | .curso => "Curso"
  | .niu => "NIU"

/-- `fieldMsg(f, applied)` from the source. -/
def fieldMsg (f : Field) (applied : Bool) : String :=
  if applied then fieldLabel f ++ " modificado correctamente"
  else "Cambio de " ++ fieldLabel f ++ " solicitado correctamente"

/-- One iteration of the `forEach` over `data.aplicados`: add the `updated`
class and emit one success toast. -/
def markApplied (st : TopbarState) (f : Field) : TopbarState :=
  { st with
    fields := st.fields.set f { st.fields.get f with updated := true }
    toasts := st.toasts ++ [(fieldMsg f true, "success")] }

/-- One iteration of the `forEach` over `data.pendientes_aprobacion`: add the
`pending` class and emit one warning toast. -/
def markPending (st : TopbarState) (f : Field) : TopbarState :=
  { st with
    fields := st.fields.set f { st.fields.get f with pending := true }
    toasts := st.toasts ++ [(fieldMsg f false, "warning")] }

/-- `(data.aplicados || []).forEach(...)`. -/
def processAplicados : List Field → TopbarState → TopbarState
  | [], st => st
  | f :: rest, st => processAplicados rest (markApplied st f)

/-- `(data.pendientes_aprobacion || []).forEach(...)`. -/
def processPendientes : List Field → TopbarState → TopbarState
  | [], st => st
  | f :: rest, st => processPendientes rest (markPending st f)

/-- Disable all four inputs and remove the `updated` and `pending` classes on all
inputs. -/
def clearMarksDisable (fs : Fields) : Fields :=
  { nombre := { fs.nombre with disabled := true, updated := false, pending := false }
    grupo := { fs.grupo with disabled := true, updated := false, pending := false }
    curso := { fs.curso with disabled := true, updated := false, pending := false }
    niu := { fs.niu with disabled := true, updated := false, pending := false } }

/-- The `if(resp.ok)` branch of the save handler, in source order: disable
and unmark all inputs, show the edit button and hide the save button,
repopulate values from `data.perfil || {}`, then walk the two classification
lists. -/
def applySaveSuccess (st : TopbarState) (data : PatchResp) : TopbarState :=
  let st1 := { st with fields := clearMarksDisable st.fields }
  let st2 := { st1 with editHidden := false, saveHidden := true }
  let st3 := setValuesFromPerfil st2 (data.perfil.getD emptyPerfil)
  let st4 := processAplicados (data.aplicados.getD []) st3
  processPendientes (data.pendientes_aprobacion.getD []) st4

/-- The save-button click handler: PATCH `/me/perfil`, then
`const data = await resp.json()` with no try/catch (a thrown fetch or a parse
failure escapes unhandled), then the success branch only when `resp.ok`. -/
def saveClick (st : TopbarState) (o : FetchResult PatchResp) : OpResult TopbarState :=
  match o with
  | .thrown => { state := st, unhandled := true }
  | .got r =>
      match r.body with
      | none => { state := st, unhandled := true }
      | some data =>
          if r.ok then { state := applySaveSuccess st data, unhandled := false }
          else { state := st, unhandled := false }

/-- A save outcome counts as failed when no usable response was obtained or
the status was not a success. -/
def saveFailed (o : FetchResult PatchResp) : Prop :=
  o = .thrown ∨ ∃ r, o = .got r ∧ (r.ok = false ∨ r.body = none)

/-! ## Toast lifecycle (`showToast`)

`showToast` looks up `#toastContainer` and returns immediately when it is
absent; otherwise it appends one element and schedules a timer with delay
3000.  The timer callback adds the `hide` class and registers a once-only
`animationend` listener that removes the element.  The per-toast lifecycle is
a three-state machine reacting to the two events. -/

/-- Phase of one toast element: freshly appended, hiding (timer fired, the
`hide` class added and the removal listener registered), or removed from the
document. -/
inductive ToastLife where
  | displayed : ToastLife
  | dismissing : ToastLife
  | removed : ToastLife
deriving DecidableEq, Repr

/-- The two events a toast element can receive. -/
inductive ToastEvent where
  | timeoutFired : ToastEvent
  | animationEnd : ToastEvent
deriving DecidableEq, Repr

/-- The delay passed to `setTimeout` in `showToast`. -/
def TOAST_DISPLAY_MS : Nat := 3000

/-- Lifecycle transition of one toast.  An `animationend` while still
displayed does nothing (the listener is registered only inside the timer
callback), and events on a removed toast do nothing. -/
def toastStep : ToastLife → ToastEvent → ToastLife
  | .displayed, .timeoutFired => .dismissing
  | .dismissing, .animationEnd => .removed
  | s, _ => s

/-- One toast element in the container, with the delay its dismissal timer
was scheduled with. -/
structure ToastEntry where
  msg : String
  ttype : String
  life : ToastLife
  delay : Nat
deriving DecidableEq, Repr

/-- `showToast(msg, type)`: `none` models an absent `#toastContainer`
(`if(!cont) return`); otherwise one element is appended and its timer
scheduled at 3000 ms. -/
def showToast (cont : Option (List ToastEntry)) (msg ttype : String) :
    Option (List ToastEntry) :=
  match cont with
  | none => none
  | some ts => some (ts ++ [{ msg := msg, ttype := ttype, life := .displayed, delay := TOAST_DISPLAY_MS }])

/-- Number of occurrences of one notification (message text, toast type) in
an emitted-notification list. -/
def countToasts (x : String × String) (l : List (String × String)) : Nat :=
  (l.filter (fun y => decide (y = x))).length

/-! ## Concrete sample values used by witnesses -/

/-- A theming body carrying only the `accent` role. -/
def partialTheme : ThemeConfig :=
  { primary := none, secondary := none, topbar := none, accent := some "#abcdef" }

/-- An input with everything cleared. -/
def blankField : FieldState :=
  { value := "", disabled := true, updated := false, pending := false }

/-- The topbar before any profile data arrived. -/
def sampleState : TopbarState :=
  { fields := { nombre := blankField, grupo := blankField, curso := blankField, niu := blankField }
    userName := ""
    userNIU := ""
    editHidden := false
    saveHidden := true
    toasts := [] }

/-- A topbar with previously rendered values and stale marks from an earlier
save. -/
def staleState : TopbarState :=
  { fields :=
      { nombre := { value := "Alice", disabled := true, updated := true, pending := false }
        grupo := { value := "G1", disabled := true, updated := false, pending := true }
        curso := { value := "C1", disabled := true, updated := true, pending := false }
        niu := { value := "12345", disabled := true, updated := false, pending := false } }
    userName := "Alice"
    userNIU := "12345"
    editHidden := false
    saveHidden := true
    toasts := [] }

/-- A full profile record as the backend would return it. -/
def samplePerfil : Perfil :=
  { nombre := some "Ana", grupo := some "ECO2", curso := some "2", niu := some "777" }

/-- The patch response of the worked example in the specification:
`aplicados = [nombre]`, `pendientes_aprobacion = [grupo]`. -/
def samplePatch : PatchResp :=
  { perfil := some samplePerfil
    aplicados := some [Field.nombre]
    pendientes_aprobacion := some [Field.grupo] }

/-- A patch response naming the same field in both classification lists. -/
def overlapPatch : PatchResp :=
  { perfil := some samplePerfil
    aplicados := some [Field.nombre]
    pendientes_aprobacion := some [Field.nombre] }

/-- A 200 response carrying `samplePatch`. -/
def okPatchResp : HttpResp PatchResp :=
  { status := 200, body := some samplePatch }

/-- A 200 response carrying `overlapPatch`. -/
def okOverlapResp : HttpResp PatchResp :=
  { status := 200, body := some overlapPatch }

/-! ## Theorems -/

/-! ### Helper lemmas about the topbar save path -/

lemma Fields.get_set (fs : Fields) (g : Field) (s : FieldState) (f : Field) :
    (fs.set g s).get f = if f = g then s else fs.get f := by
  cases f <;> cases g <;> rfl

lemma markApplied_get (st : TopbarState) (g f : Field) :
    (markApplied st g).fields.get f =
      if f = g then { st.fields.get g with updated := true } else st.fields.get f := by
  simp [markApplied, Fields.get_set]

lemma markPending_get (st : TopbarState) (g f : Field) :
    (markPending st g).fields.get f =
      if f = g then { st.fields.get g with pending := true } else st.fields.get f := by
  simp [markPending, Fields.get_set]

lemma processAplicados_cons (g : Field) (rest : List Field) (st : TopbarState) :
    processAplicados (g :: rest) st = processAplicados rest (markApplied st g) := rfl

lemma processPendientes_cons (g : Field) (rest : List Field) (st : TopbarState) :
    processPendientes (g :: rest) st = processPendientes rest (markPending st g) := rfl

lemma processAplicados_updated (A : List Field) : ∀ (st : TopbarState) (f : Field),
    (((processAplicados A st).fields.get f).updated = true) ↔
      ((st.fields.get f).updated = true ∨ f ∈ A) := by
  induction A with
  | nil => intro st f; simp [processAplicados]
  | cons g rest ih =>
      intro st f
      rw [processAplicados_cons, ih, markApplied_get]
      by_cases hfg : f = g
      · subst hfg; simp
      · simp [hfg]

lemma processAplicados_pending (A : List Field) : ∀ (st : TopbarState) (f : Field),
    ((processAplicados A st).fields.get f).pending = (st.fields.get f).pending := by
  induction A with
  | nil => intro st f; rfl
  | cons g rest ih =>
      intro st f
      rw [processAplicados_cons, ih, markApplied_get]
      by_cases hfg : f = g
      · subst hfg; simp
      · simp [hfg]

lemma processAplicados_value (A : List Field) : ∀ (st : TopbarState) (f : Field),
    ((processAplicados A st).fields.get f).value = (st.fields.get f).value := by
  induction A with
  | nil => intro st f; rfl
  | cons g rest ih =>
      intro st f
      rw [processAplicados_cons, ih, markApplied_get]
      by_cases hfg : f = g
      · subst hfg; simp
      · simp [hfg]

lemma processAplicados_disabled (A : List Field) : ∀ (st : TopbarState) (f : Field),
    ((processAplicados A st).fields.get f).disabled = (st.fields.get f).disabled := by
  induction A with
  | nil => intro st f; rfl
  | cons g rest ih =>
      intro st f
      rw [processAplicados_cons, ih, markApplied_get]
      by_cases hfg : f = g
      · subst hfg; simp
      · simp [hfg]

lemma processPendientes_pending (P : List Field) : ∀ (st : TopbarState) (f : Field),
    (((processPendientes P st).fields.get f).pending = true) ↔
      ((st.fields.get f).pending = true ∨ f ∈ P) := by
  induction P with
  | nil => intro st f; simp [processPendientes]
  | cons g rest ih =>
      intro st f
      rw [processPendientes_cons, ih, markPending_get]
      by_cases hfg : f = g
      · subst hfg; simp
      · simp [hfg]

lemma processPendientes_updated (P : List Field) : ∀ (st : TopbarState) (f : Field),
    ((processPendientes P st).fields.get f).updated = (st.fields.get f).updated := by
  induction P with
  | nil => intro st f; rfl
  | cons g rest ih =>
      intro st f
      rw [processPendientes_cons, ih, markPending_get]
      by_cases hfg : f = g
      · subst hfg; simp
      · simp [hfg]

lemma processPendientes_value (P : List Field) : ∀ (st : TopbarState) (f : Field),
    ((processPendientes P st).fields.get f).value = (st.fields.get f).value := by
  induction P with
  | nil => intro st f; rfl
  | cons g rest ih =>
      intro st f
      rw [processPendientes_cons, ih, markPending_get]
      by_cases hfg : f = g
      · subst hfg; simp
      · simp [hfg]

lemma processPendientes_disabled (P : List Field) : ∀ (st : TopbarState) (f : Field),
    ((processPendientes P st).fields.get f).disabled = (st.fields.get f).disabled := by
  induction P with
  | nil => intro st f; rfl
  | cons g rest ih =>
      intro st f
      rw [processPendientes_cons, ih, markPending_get]
      by_cases hfg : f = g
      · subst hfg; simp
      · simp [hfg]

lemma processAplicados_misc (A : List Field) : ∀ (st : TopbarState),
    (processAplicados A st).userName = st.userName ∧
    (processAplicados A st).userNIU = st.userNIU ∧
    (processAplicados A st).editHidden = st.editHidden ∧
    (processAplicados A st).saveHidden = st.saveHidden := by
  induction A with
  | nil => intro st; exact ⟨rfl, rfl, rfl, rfl⟩
  | cons g rest ih =>
      intro st
      rw [processAplicados_cons]
      exact ih (markApplied st g)

lemma processPendientes_misc (P : List Field) : ∀ (st : TopbarState),
    (processPendientes P st).userName = st.userName ∧
    (processPendientes P st).userNIU = st.userNIU ∧
    (processPendientes P st).editHidden = st.editHidden ∧
    (processPendientes P st).saveHidden = st.saveHidden := by
  induction P with
  | nil => intro st; exact ⟨rfl, rfl, rfl, rfl⟩
  | cons g rest ih =>
      intro st
      rw [processPendientes_cons]
      exact ih (markPending st g)

lemma processAplicados_toasts (A : List Field) : ∀ (st : TopbarState),
    (processAplicados A st).toasts =
      st.toasts ++ A.map (fun g => (fieldMsg g true, "success")) := by
  induction A with
  | nil => intro st; simp [processAplicados]
  | cons g rest ih =>
      intro st
      rw [processAplicados_cons, ih]
      simp [markApplied]

lemma processPendientes_toasts (P : List Field) : ∀ (st : TopbarState),
    (processPendientes P st).toasts =
      st.toasts ++ P.map (fun g => (fieldMsg g false, "warning")) := by
  induction P with
  | nil => intro st; simp [processPendientes]
  | cons g rest ih =>
      intro st
      rw [processPendientes_cons, ih]
      simp [markPending]

lemma setValuesFromPerfil_get (st : TopbarState) (p : Perfil) (f : Field) :
    (setValuesFromPerfil st p).fields.get f =
      { st.fields.get f with value := (p.get f).getD "" } := by
  cases f <;> rfl

lemma clearMarksDisable_get (fs : Fields) (f : Field) :
    (clearMarksDisable fs).get f =
      { fs.get f with disabled := true, updated := false, pending := false } := by
  cases f <;> rfl

lemma applySave_updated (st : TopbarState) (data : PatchResp) (f : Field) :
    (((applySaveSuccess st data).fields.get f).updated = true) ↔
      f ∈ data.aplicados.getD [] := by
  unfold applySaveSuccess
  rw [processPendientes_updated, processAplicados_updated, setValuesFromPerfil_get]
  simp [clearMarksDisable_get]

lemma applySave_pending (st : TopbarState) (data : PatchResp) (f : Field) :
    (((applySaveSuccess st data).fields.get f).pending = true) ↔
      f ∈ data.pendientes_aprobacion.getD [] := by
  unfold applySaveSuccess
  rw [processPendientes_pending, processAplicados_pending, setValuesFromPerfil_get]
  simp [clearMarksDisable_get]

lemma applySave_disabled (st : TopbarState) (data : PatchResp) (f : Field) :
    ((applySaveSuccess st data).fields.get f).disabled = true := by
  unfold applySaveSuccess
  rw [processPendientes_disabled, processAplicados_disabled, setValuesFromPerfil_get]
  simp [clearMarksDisable_get]

lemma applySave_value (st : TopbarState) (data : PatchResp) (f : Field) :
    ((applySaveSuccess st data).fields.get f).value =
      ((data.perfil.getD emptyPerfil).get f).getD "" := by
  unfold applySaveSuccess
  rw [processPendientes_value, processAplicados_value, setValuesFromPerfil_get]

lemma applySave_misc (st : TopbarState) (data : PatchResp) :
    (applySaveSuccess st data).userName = ((data.perfil.getD emptyPerfil).nombre).getD "" ∧
    (applySaveSuccess st data).userNIU = ((data.perfil.getD emptyPerfil).niu).getD "" ∧
    (applySaveSuccess st data).editHidden = false ∧
    (applySaveSuccess st data).saveHidden = true := by
  unfold applySaveSuccess
  have h1 := processPendientes_misc (data.pendientes_aprobacion.getD [])
  have h2 := processAplicados_misc (data.aplicados.getD [])
  refine ⟨?_, ?_, ?_, ?_⟩ <;>
    simp [(h1 _).1, (h1 _).2.1, (h1 _).2.2.1, (h1 _).2.2.2,
      (h2 _).1, (h2 _).2.1, (h2 _).2.2.1, (h2 _).2.2.2, setValuesFromPerfil]

lemma applySave_toasts (st : TopbarState) (data : PatchResp) :
    (applySaveSuccess st data).toasts =
      st.toasts ++ (data.aplicados.getD []).map (fun g => (fieldMsg g true, "success"))
        ++ (data.pendientes_aprobacion.getD []).map (fun g => (fieldMsg g false, "warning")) := by
  unfold applySaveSuccess
  rw [processPendientes_toasts, processAplicados_toasts]
  simp [setValuesFromPerfil, List.append_assoc]

lemma fieldMsg_inj : ∀ (b : Bool) (f g : Field), fieldMsg f b = fieldMsg g b → f = g := by
  decide

lemma countToasts_append (x : String × String) (l1 l2 : List (String × String)) :
    countToasts x (l1 ++ l2) = countToasts x l1 + countToasts x l2 := by
  simp [countToasts, List.filter_append]

lemma countToasts_map_fieldMsg (b : Bool) (s : String) (f : Field) :
    ∀ (A : List Field), A.Nodup →
      countToasts (fieldMsg f b, s) (A.map (fun g => (fieldMsg g b, s))) =
        if f ∈ A then 1 else 0 := by
  intro A
  induction A with
  | nil => intro _; simp [countToasts]
  | cons g rest ih =>
      intro hnd
      rcases List.nodup_cons.mp hnd with ⟨hgn, hrest⟩
      have hrec := ih hrest
      simp only [countToasts] at hrec
      by_cases hfg : f = g
      · subst hfg
        simp [countToasts, List.filter_cons, hrec, hgn]
      · have hne : (fieldMsg g b, s) ≠ (fieldMsg f b, s) := by
          intro hpair
          exact hfg (fieldMsg_inj b f g (congrArg Prod.fst hpair).symm)
        simp [countToasts, List.filter_cons, hne, hrec, hfg]

lemma countToasts_map_mixed (f : Field) (b b' : Bool) (s s' : String) (hs : s ≠ s') :
    ∀ (A : List Field),
      countToasts (fieldMsg f b', s') (A.map (fun g => (fieldMsg g b, s))) = 0 := by
  intro A
  induction A with
  | nil => simp [countToasts]
  | cons g rest ih =>
      have hne : (fieldMsg g b, s) ≠ (fieldMsg f b', s') := by
        intro hpair
        exact hs (congrArg Prod.snd hpair)
      have hrec := ih
      simp only [countToasts] at hrec
      simp [countToasts, List.filter_cons, hne, hrec]

/-- C1: on every failed theming fetch (thrown fetch, non-success status, or a
success body that fails to parse) both server-side theme resolvers return
exactly the hardcoded default palette, all four roles at their default values
and never a mix; on a success status with a parseable body they return the
parsed body as-is, unmerged. -/
theorem C1_theme_full_fallback (o : FetchResult ThemeConfig) :
    (themeFetchFailed o → getTheme o = DEFAULT_THEME ∧ themingMiddleware o = DEFAULT_THEME) ∧
    (∀ r t, o = .got r → r.ok = true → r.body = some t →
      getTheme o = t ∧ themingMiddleware o = t) := by
  constructor
  · intro h
    rcases h with h | ⟨r, rfl, h⟩
    · subst h; exact ⟨rfl, rfl⟩
    · rcases h with hok | hbody
      · simp [getTheme, themingMiddleware, hok, DEFAULT_THEME]
      · cases hr : r.ok <;>
          simp [getTheme, themingMiddleware, hr, hbody, DEFAULT_THEME]
  · rintro r t rfl hok hbody
    simp [getTheme, themingMiddleware, hok, hbody]

/-- Witness for C1: a 503 response falls back to the full default palette and
a 200 response carrying only the `accent` role is returned unmodified. -/
theorem C1_theme_full_fallback_witness :
    (getTheme (FetchResult.got { status := 503, body := none }) = DEFAULT_THEME ∧
      themingMiddleware (FetchResult.got { status := 503, body := none }) = DEFAULT_THEME) ∧
    (getTheme (FetchResult.got { status := 200, body := some partialTheme }) = partialTheme ∧
      themingMiddleware (FetchResult.got { status := 200, body := some partialTheme }) = partialTheme) :=
  ⟨(C1_theme_full_fallback _).1 (Or.inr ⟨_, rfl, Or.inr rfl⟩),
   (C1_theme_full_fallback _).2 _ _ rfl rfl rfl⟩

/-- C2 counterexample: a reachable backend that answers 200 with a body that
fails to parse as JSON makes the proxy answer the fixed 500 payload, so the
proxy does invent a status code for a reachable backend. -/
theorem C2_counterexample :
    otpProxyRelay (FetchResult.got { status := 200, body := (none : Option String) }) =
      (500, ProxyBody.detail "Error de conexión con backend") ∧
    FetchResult.got { status := 200, body := (none : Option String) } ≠
      (FetchResult.thrown : FetchResult String) ∧
    ({ status := 200, body := (none : Option String) } : HttpResp String).ok = true :=
  ⟨rfl, by decide, rfl⟩

/-- C2 amended: the proxy forwards the backend status and parsed JSON body
verbatim whenever the backend produced a response whose body parses as JSON;
it answers the fixed 500 payload both when the backend could not be reached
and when a reachable backend produced a body that fails to parse as JSON. -/
theorem C2_proxy_amended {α : Type} (o : FetchResult α) :
    (o = .thrown →
      otpProxyRelay o = (500, ProxyBody.detail "Error de conexión con backend")) ∧
    (∀ r a, o = .got r → r.body = some a →
      otpProxyRelay o = (r.status, ProxyBody.forwarded a)) ∧
    (∀ r, o = .got r → r.body = none →
      otpProxyRelay o = (500, ProxyBody.detail "Error de conexión con backend")) := by
  refine ⟨?_, ?_, ?_⟩
  · rintro rfl; rfl
  · rintro r a rfl hbody; simp [otpProxyRelay, hbody]
  · rintro r rfl hbody; simp [otpProxyRelay, hbody]

/-- Witness for C2 amended: a 404 with a parseable body is forwarded as a 404
with the same body, and an unreachable backend yields the fixed 500. -/
theorem C2_proxy_amended_witness :
    otpProxyRelay (FetchResult.got { status := 404, body := some "x" }) =
      (404, ProxyBody.forwarded "x") ∧
    otpProxyRelay (FetchResult.thrown : FetchResult String) =
      (500, ProxyBody.detail "Error de conexión con backend") :=
  ⟨(C2_proxy_amended _).2.1 _ _ rfl rfl, (C2_proxy_amended _).1 rfl⟩

/-- C6 counterexample: a success status whose body fails to parse as JSON is
shown as the network-error message and the UI stays on the email step, so the
three outcomes are not determined by the backend response alone as claimed. -/
theorem C6_counterexample :
    ({ status := 200, body := (none : Option OtpReqBody) } : HttpResp OtpReqBody).ok = true ∧
    requestOtp LoginStep.email (FetchResult.got { status := 200, body := none }) =
      { message := "Error de red", step := LoginStep.email } :=
  ⟨rfl, rfl⟩

/-- C6 amended: `requestOtp` has four outcomes.  On a success status with a
parseable body it shows the backend message (fallback `Código enviado`) and
moves to the code step; on a success status with an unparseable body it shows
`Error de red` and stays; on a non-success status it shows the `detail` field
when present, else the generic failure message, and stays; on transport
failure it shows `Error de red`. -/
theorem C6_requestOtp_amended (prev : LoginStep) (o : FetchResult OtpReqBody) :
    (o = .thrown → requestOtp prev o = { message := "Error de red", step := prev }) ∧
    (∀ r d, o = .got r → r.ok = true → r.body = some d →
      requestOtp prev o = { message := d.message.getD "Código enviado", step := LoginStep.code }) ∧
    (∀ r, o = .got r → r.ok = true → r.body = none →
      requestOtp prev o = { message := "Error de red", step := prev }) ∧
    (∀ r, o = .got r → r.ok = false →
      requestOtp prev o =
        { message := (r.body.bind OtpReqBody.detail).getD "Error al solicitar código"
          step := prev }) := by
  refine ⟨?_, ?_, ?_, ?_⟩
  · rintro rfl; rfl
  · rintro r d rfl hok hbody; simp [requestOtp, hok, hbody]
  · rintro r rfl hok hbody; simp [requestOtp, hok, hbody]
  · rintro r rfl hok
    cases hbody : r.body with
    | none => simp [requestOtp, hok, hbody, Option.bind]
    | some d => simp [requestOtp, hok, hbody, Option.bind]

/-- Witness for C6 amended: the three concrete scenarios of the specification
(`sent` on 200, `invalid email` on 400, network error), plus the unparseable
success body. -/
theorem C6_requestOtp_amended_witness :
    requestOtp LoginStep.email
        (FetchResult.got { status := 200, body := some { message := some "sent", detail := none } }) =
      { message := "sent", step := LoginStep.code } ∧
    requestOtp LoginStep.email
        (FetchResult.got { status := 400, body := some { message := none, detail := some "invalid email" } }) =
      { message := "invalid email", step := LoginStep.email } ∧
    requestOtp LoginStep.email FetchResult.thrown =
      { message := "Error de red", step := LoginStep.email } := by
  refine ⟨?_, ?_, ?_⟩
  · have h := C6_requestOtp_amended LoginStep.email
      (FetchResult.got { status := 200, body := some { message := some "sent", detail := none } })
    exact h.2.1 _ _ rfl rfl rfl
  · have h := C6_requestOtp_amended LoginStep.email
      (FetchResult.got { status := 400, body := some { message := none, detail := some "invalid email" } })
    exact h.2.2.2 _ rfl rfl
  · exact (C6_requestOtp_amended LoginStep.email FetchResult.thrown).1 rfl

/-- C10: when the toast container is absent `showToast` is a silent no-op;
otherwise it appends exactly one toast, scheduled with the fixed 3000 ms
delay; a toast is removed only from the dismissing phase on `animationend`,
and the dismissing phase is entered only from the displayed phase when the
timer fires. -/
theorem C10_showToast_lifecycle :
    (∀ m t, showToast none m t = none) ∧
    (∀ ts m t, showToast (some ts) m t =
      some (ts ++ [{ msg := m, ttype := t, life := ToastLife.displayed, delay := TOAST_DISPLAY_MS }])) ∧
    TOAST_DISPLAY_MS = 3000 ∧
    (∀ l e, l ≠ ToastLife.removed → toastStep l e = ToastLife.removed →
      l = ToastLife.dismissing ∧ e = ToastEvent.animationEnd) ∧
    (∀ l e, l ≠ ToastLife.dismissing → toastStep l e = ToastLife.dismissing →
      l = ToastLife.displayed ∧ e = ToastEvent.timeoutFired) := by
  refine ⟨fun m t => rfl, fun ts m t => rfl, rfl, ?_, ?_⟩ <;>
    · intro l e h1 h2
      cases l <;> cases e <;> simp_all [toastStep]

/-- Witness for C10: a toast in the dismissing phase receiving `animationend`
satisfies the removal clause, and `showToast` on an empty container appends
one displayed toast with delay 3000. -/
theorem C10_showToast_lifecycle_witness :
    (ToastLife.dismissing = ToastLife.dismissing ∧
      ToastEvent.animationEnd = ToastEvent.animationEnd) ∧
    showToast (some []) "hola" "info" =
      some [{ msg := "hola", ttype := "info", life := ToastLife.displayed, delay := TOAST_DISPLAY_MS }] :=
  ⟨C10_showToast_lifecycle.2.2.2.1 ToastLife.dismissing ToastEvent.animationEnd
      (by decide) rfl,
   C10_showToast_lifecycle.2.1 [] "hola" "info"⟩

/-- C3: on every profile-save response with a success status and
non-repeating classification lists, the client re-disables the four inputs,
reverts the action control, repopulates the inputs and display fields from
the perfil of the response (missing fields becoming empty strings), marks
exactly the fields in `aplicados` as updated and those in
`pendientes_aprobacion` as pending, and the newly emitted notifications are
exactly one success notification per name in `aplicados` and one warning
notification per name in `pendientes_aprobacion`; a field in neither list
gets no mark and zero new notifications. -/
theorem C3_save_success_behavior (st : TopbarState) (r : HttpResp PatchResp)
    (data : PatchResp) (hbody : r.body = some data) (hok : r.ok = true)
    (hA : (data.aplicados.getD []).Nodup)
    (hP : (data.pendientes_aprobacion.getD []).Nodup) :
    (saveClick st (.got r)).unhandled = false ∧
    (∀ f, ((saveClick st (.got r)).state.fields.get f).disabled = true) ∧
    (saveClick st (.got r)).state.editHidden = false ∧
    (saveClick st (.got r)).state.saveHidden = true ∧
    (∀ f, ((saveClick st (.got r)).state.fields.get f).value =
      ((data.perfil.getD emptyPerfil).get f).getD "") ∧
    (saveClick st (.got r)).state.userName = ((data.perfil.getD emptyPerfil).nombre).getD "" ∧
    (saveClick st (.got r)).state.userNIU = ((data.perfil.getD emptyPerfil).niu).getD "" ∧
    (∀ f, (((saveClick st (.got r)).state.fields.get f).updated = true) ↔
      f ∈ data.aplicados.getD []) ∧
    (∀ f, (((saveClick st (.got r)).state.fields.get f).pending = true) ↔
      f ∈ data.pendientes_aprobacion.getD []) ∧
    (saveClick st (.got r)).state.toasts =
      st.toasts ++ (data.aplicados.getD []).map (fun g => (fieldMsg g true, "success"))
        ++ (data.pendientes_aprobacion.getD []).map (fun g => (fieldMsg g false, "warning")) ∧
    (∀ f, countToasts (fieldMsg f true, "success")
        ((saveClick st (.got r)).state.toasts.drop st.toasts.length) =
      if f ∈ data.aplicados.getD [] then 1 else 0) ∧
    (∀ f, countToasts (fieldMsg f false, "warning")
        ((saveClick st (.got r)).state.toasts.drop st.toasts.length) =
      if f ∈ data.pendientes_aprobacion.getD [] then 1 else 0) := by
  have hred : saveClick st (.got r) =
      { state := applySaveSuccess st data, unhandled := false } := by
    simp [saveClick, hbody, hok]
  rw [hred]
  have hmisc := applySave_misc st data
  have htoasts := applySave_toasts st data
  have hdrop : (applySaveSuccess st data).toasts.drop st.toasts.length =
      (data.aplicados.getD []).map (fun g => (fieldMsg g true, "success")) ++
        (data.pendientes_aprobacion.getD []).map (fun g => (fieldMsg g false, "warning")) := by
    rw [htoasts, List.append_assoc, List.drop_left]
  refine ⟨rfl, fun f => applySave_disabled st data f, hmisc.2.2.1, hmisc.2.2.2,
    fun f => applySave_value st data f, hmisc.1, hmisc.2.1,
    fun f => applySave_updated st data f, fun f => applySave_pending st data f,
    htoasts, ?_, ?_⟩
  · intro f
    rw [hdrop, countToasts_append, countToasts_map_fieldMsg true "success" f _ hA,
      countToasts_map_mixed f false true "warning" "success" (by decide) _]
    exact Nat.add_zero _
  · intro f
    rw [hdrop, countToasts_append,
      countToasts_map_mixed f true false "success" "warning" (by decide) _,
      countToasts_map_fieldMsg false "warning" f _ hP]
    exact Nat.zero_add _

/-- Witness for C3 at the worked example of the specification:
`aplicados = [nombre]`, `pendientes_aprobacion = [grupo]` marks `nombre`
updated, `grupo` pending, and emits no success notification for `curso`. -/
theorem C3_save_success_behavior_witness :
    ((saveClick sampleState (FetchResult.got okPatchResp)).state.fields.get Field.nombre).updated = true ∧
    ((saveClick sampleState (FetchResult.got okPatchResp)).state.fields.get Field.grupo).pending = true ∧
    countToasts (fieldMsg Field.curso true, "success")
      ((saveClick sampleState (FetchResult.got okPatchResp)).state.toasts.drop sampleState.toasts.length) = 0 := by
  have h := C3_save_success_behavior sampleState okPatchResp samplePatch rfl rfl
    (by decide) (by decide)
  obtain ⟨h1, h2, h3, h4, h5, h6, h7, h8, h9, h10, h11, h12⟩ := h
  refine ⟨(h8 Field.nombre).mpr (by decide), (h9 Field.grupo).mpr (by decide), ?_⟩
  have hx := h11 Field.curso
  rw [if_neg (by decide)] at hx
  exact hx

/-- C9 (implicit): a successful save clears the previous marks before
applying the new classification lists, so afterwards a field is marked
updated exactly when the latest `aplicados` names it, and marked pending
exactly when the latest `pendientes_aprobacion` names it, regardless of any
marks carried over from earlier saves. -/
theorem C9_marks_reset (st : TopbarState) (r : HttpResp PatchResp) (data : PatchResp)
    (hbody : r.body = some data) (hok : r.ok = true) (f : Field) :
    ((((saveClick st (.got r)).state.fields.get f).updated = true) ↔
      f ∈ data.aplicados.getD []) ∧
    ((((saveClick st (.got r)).state.fields.get f).pending = true) ↔
      f ∈ data.pendientes_aprobacion.getD []) := by
  have hred : saveClick st (.got r) =
      { state := applySaveSuccess st data, unhandled := false } := by
    simp [saveClick, hbody, hok]
  rw [hred]
  exact ⟨applySave_updated st data f, applySave_pending st data f⟩

/-- Witness for C9: starting from a state where `curso` still carries a stale
updated mark, a save whose lists do not name `curso` leaves it unmarked while
`nombre` (in the new `aplicados`) is marked. -/
theorem C9_marks_reset_witness :
    staleState.fields.curso.updated = true ∧
    ((saveClick staleState (FetchResult.got okPatchResp)).state.fields.get Field.curso).updated = false ∧
    ((saveClick staleState (FetchResult.got okPatchResp)).state.fields.get Field.nombre).updated = true := by
  have h1 := C9_marks_reset staleState okPatchResp samplePatch rfl rfl Field.curso
  have h2 := C9_marks_reset staleState okPatchResp samplePatch rfl rfl Field.nombre
  refine ⟨rfl, ?_, h2.1.mpr (by decide)⟩
  have hfalse : ¬(((saveClick staleState (FetchResult.got okPatchResp)).state.fields.get Field.curso).updated = true) :=
    fun hx => absurd (h1.1.mp hx) (by decide)
  simpa using hfalse

/-- C5 counterexample: the client does not itself enforce disjoint
classification lists; a response naming `nombre` in both lists marks the
field both updated and pending and emits both a success and a warning
notification for it in one save. -/
theorem C5_counterexample :
    ((saveClick sampleState (FetchResult.got okOverlapResp)).state.fields.get Field.nombre).updated = true ∧
    ((saveClick sampleState (FetchResult.got okOverlapResp)).state.fields.get Field.nombre).pending = true ∧
    countToasts (fieldMsg Field.nombre true, "success")
      ((saveClick sampleState (FetchResult.got okOverlapResp)).state.toasts) = 1 ∧
    countToasts (fieldMsg Field.nombre false, "warning")
      ((saveClick sampleState (FetchResult.got okOverlapResp)).state.toasts) = 1 :=
  ⟨rfl, rfl, rfl, rfl⟩

/-- C5 amended: whenever a field is not named by both classification lists of
one save response (as the protocol promises), the client hands it at most one
classification: it never ends up marked both updated and pending. -/
theorem C5_disjoint_single_classification (st : TopbarState) (r : HttpResp PatchResp)
    (data : PatchResp) (hbody : r.body = some data) (hok : r.ok = true) (f : Field)
    (hdisj : ¬(f ∈ data.aplicados.getD [] ∧ f ∈ data.pendientes_aprobacion.getD [])) :
    ¬((((saveClick st (.got r)).state.fields.get f).updated = true) ∧
      (((saveClick st (.got r)).state.fields.get f).pending = true)) := by
  have hred : saveClick st (.got r) =
      { state := applySaveSuccess st data, unhandled := false } := by
    simp [saveClick, hbody, hok]
  rw [hred]
  rintro ⟨hu, hp⟩
  exact hdisj ⟨(applySave_updated st data f).mp hu, (applySave_pending st data f).mp hp⟩

/-- Witness for C5 amended: with the disjoint lists of the worked example,
`nombre` is not marked both ways. -/
theorem C5_disjoint_single_classification_witness :
    ¬((((saveClick sampleState (FetchResult.got okPatchResp)).state.fields.get Field.nombre).updated = true) ∧
      (((saveClick sampleState (FetchResult.got okPatchResp)).state.fields.get Field.nombre).pending = true)) :=
  C5_disjoint_single_classification sampleState okPatchResp samplePatch rfl rfl
    Field.nombre (by decide)

/-- C7: on every failed profile save (non-success status, thrown fetch, or a
body that fails to parse before the status check) the whole topbar state is
unchanged: values, enabled state, marks, action control, display fields and
the emitted notifications are exactly as before. -/
theorem C7_failed_save_no_mutation (st : TopbarState) (o : FetchResult PatchResp)
    (h : saveFailed o) : (saveClick st o).state = st := by
  rcases h with rfl | ⟨r, rfl, h⟩
  · rfl
  · rcases h with hok | hbody
    · cases hb : r.body with
      | none => simp [saveClick, hb]
      | some data => simp [saveClick, hb, hok]
    · simp [saveClick, hbody]

/-- Witness for C7: a 500 response with a parseable body mutates nothing. -/
theorem C7_failed_save_no_mutation_witness :
    saveFailed (FetchResult.got { status := 500, body := some samplePatch }) ∧
    (saveClick sampleState (FetchResult.got { status := 500, body := some samplePatch })).state = sampleState :=
  ⟨Or.inr ⟨_, rfl, Or.inl rfl⟩,
   C7_failed_save_no_mutation sampleState _ (Or.inr ⟨_, rfl, Or.inl rfl⟩)⟩

/-- C4 counterexample: a non-success status on the profile load does not
leave the fields at their previously rendered values; it repopulates all of
them with empty strings. -/
theorem C4_counterexample :
    ({ status := 404, body := (none : Option PerfilResp) } : HttpResp PerfilResp).ok = false ∧
    staleState.fields.nombre.value = "Alice" ∧
    (loadPerfil staleState (FetchResult.got { status := 404, body := none })).state.fields.nombre.value = "" ∧
    (loadPerfil staleState (FetchResult.got { status := 404, body := none })).state.userName = "" :=
  ⟨rfl, rfl, rfl, rfl⟩

/-- C4 amended: on a thrown network error (and on a success status whose body
fails to parse) the load aborts with an unhandled rejection and every field
keeps its previous value; on a non-success status no error is surfaced but
the four inputs and two display fields are repopulated as empty strings,
everything else (disabled state, marks, buttons, notifications) staying as it
was. -/
theorem C4_load_failure_amended (st : TopbarState) (o : FetchResult PerfilResp) :
    (o = .thrown → loadPerfil st o = { state := st, unhandled := true }) ∧
    (∀ r, o = .got r → r.ok = true → r.body = none →
      loadPerfil st o = { state := st, unhandled := true }) ∧
    (∀ r, o = .got r → r.ok = false →
      (loadPerfil st o).unhandled = false ∧
      (loadPerfil st o).state = setValuesFromPerfil st emptyPerfil) ∧
    ((∀ f, ((setValuesFromPerfil st emptyPerfil).fields.get f).value = "" ∧
        ((setValuesFromPerfil st emptyPerfil).fields.get f).disabled = (st.fields.get f).disabled ∧
        ((setValuesFromPerfil st emptyPerfil).fields.get f).updated = (st.fields.get f).updated ∧
        ((setValuesFromPerfil st emptyPerfil).fields.get f).pending = (st.fields.get f).pending) ∧
      (setValuesFromPerfil st emptyPerfil).userName = "" ∧
      (setValuesFromPerfil st emptyPerfil).userNIU = "" ∧
      (setValuesFromPerfil st emptyPerfil).toasts = st.toasts ∧
      (setValuesFromPerfil st emptyPerfil).editHidden = st.editHidden ∧
      (setValuesFromPerfil st emptyPerfil).saveHidden = st.saveHidden) := by
  refine ⟨?_, ?_, ?_, ?_⟩
  · rintro rfl; rfl
  · rintro r rfl hok hbody
    simp [loadPerfil, fetchJSON, hok, hbody]
  · rintro r rfl hok
    constructor <;> simp [loadPerfil, fetchJSON, hok]
  · refine ⟨?_, rfl, rfl, rfl, rfl, rfl⟩
    intro f
    rw [setValuesFromPerfil_get]
    cases f <;> exact ⟨rfl, rfl, rfl, rfl⟩

/-- Witness for C4 amended: a thrown fetch keeps the state and escapes
unhandled; a 500 response clears the rendered values silently. -/
theorem C4_load_failure_amended_witness :
    loadPerfil staleState FetchResult.thrown = { state := staleState, unhandled := true } ∧
    (loadPerfil staleState (FetchResult.got { status := 500, body := none })).unhandled = false ∧
    (loadPerfil staleState (FetchResult.got { status := 500, body := none })).state =
      setValuesFromPerfil staleState emptyPerfil := by
  have h := C4_load_failure_amended staleState
    (FetchResult.got ({ status := 500, body := none } : HttpResp PerfilResp))
  refine ⟨(C4_load_failure_amended staleState FetchResult.thrown).1 rfl, ?_, ?_⟩
  · exact (h.2.2.1 _ rfl rfl).1
  · exact (h.2.2.1 _ rfl rfl).2

/-- C8 counterexample: the profile load and profile save handlers contain no
try/catch, so a transport failure escapes to the top of the call stack as an
unhandled rejection rather than being converted to a message or fallback. -/
theorem C8_counterexample :
    (saveClick sampleState (FetchResult.thrown : FetchResult PatchResp)).unhandled = true ∧
    (loadPerfil sampleState (FetchResult.thrown : FetchResult PerfilResp)).unhandled = true :=
  ⟨rfl, rfl⟩

/-- C8 amended: the theme fetch, logo fetch, OTP request and OTP verify wrap
the network call in try/catch and are total (every outcome maps to a value or
message), but the profile load escapes unhandled exactly when the fetch threw
or a success-status body failed to parse, and the profile save escapes
unhandled exactly when the fetch threw or the body failed to parse. -/
theorem C8_unhandled_characterization (st : TopbarState) (o1 : FetchResult PerfilResp)
    (o2 : FetchResult PatchResp) :
    ((loadPerfil st o1).unhandled = true ↔
      (o1 = .thrown ∨ ∃ r, o1 = .got r ∧ r.ok = true ∧ r.body = none)) ∧
    ((saveClick st o2).unhandled = true ↔
      (o2 = .thrown ∨ ∃ r, o2 = .got r ∧ r.body = none)) := by
  constructor
  · cases o1 with
    | thrown => simp [loadPerfil, fetchJSON]
    | got r =>
        cases hok : r.ok <;> cases hb : r.body <;>
          simp [loadPerfil, fetchJSON, hok, hb]
  · cases o2 with
    | thrown => simp [saveClick]
    | got r =>
        cases hok : r.ok <;> cases hb : r.body <;>
          simp [saveClick, hok, hb]

end Panel
